import Mathlib

/-!
Verification of the spring reactive-controller module
(`packages/labs/motion/src/spring.ts`).

The module defines two reactive controllers:

* `SpringController` — a 1D spring wrapping one underlying physics spring
  (the `Spring` class of the `wobble` library, which is not part of this
  repository's sources; its behaviour is modelled from the specification).
* `SpringController2D` — a 2D spring composed of two independent
  `SpringController` axes.

Numbers are modelled as rationals (`ℚ`); the one genuinely irrational
derived quantity (the 2D velocity magnitude, computed with `Math.sqrt`)
is modelled in `ℝ`.  Fallible construction/reconfiguration is modelled
with `Except String`.
-/

/-- A plain 2D point, `interface Position2D {x: number; y: number}`. -/
structure Position2D where
  x : ℚ
  y : ℚ
deriving DecidableEq, Repr

/-- Modelled from the spec: the resolved spring configuration (`SpringConfig`
of the underlying `wobble` library, §3 of the spec).  The spec lists exactly
these fields; the starting value (`fromValue`) is not part of the spec's
configuration model. -/
structure WobbleSpringConfig where
  mass : ℚ
  stiffness : ℚ
  damping : ℚ
  initialVelocity : ℚ
  overshootClamping : Bool
  restDisplacementThreshold : ℚ
  restVelocityThreshold : ℚ
  toValue : ℚ
deriving DecidableEq, Repr

/-- An options object: a partial `WobbleSpringConfig` (every field optional),
together with the extra keys `toPosition`/`fromPosition` that a
`Spring2DConfig` object carries and that a TS object spread passes along
unchanged.  The underlying spring reads only the `WobbleSpringConfig`
fields and ignores the extra keys. -/
structure SpringOptions where
  mass : Option ℚ := none
  stiffness : Option ℚ := none
  damping : Option ℚ := none
  initialVelocity : Option ℚ := none
  overshootClamping : Option Bool := none
  restDisplacementThreshold : Option ℚ := none
  restVelocityThreshold : Option ℚ := none
  toValue : Option ℚ := none
  toPosition : Option Position2D := none
  fromPosition : Option Position2D := none
deriving DecidableEq, Repr

/-- Modelled from the spec: resolution of an options object to a full
configuration.  The spec (§3) fixes the default mass at 1; the remaining
defaults are the underlying library's documented defaults. -/
def resolveConfig (o : SpringOptions) : WobbleSpringConfig where
  mass := o.mass.getD 1
  stiffness := o.stiffness.getD 100
  damping := o.damping.getD 10
  initialVelocity := o.initialVelocity.getD 0
  overshootClamping := o.overshootClamping.getD false
  restDisplacementThreshold := o.restDisplacementThreshold.getD (mkRat 1 1000)
  restVelocityThreshold := o.restVelocityThreshold.getD (mkRat 1 1000)
  toValue := o.toValue.getD 0

/-- Modelled from the spec (§5/§6): merging a partial reconfiguration into a
resolved configuration, field by field. -/
def mergeConfig (c : WobbleSpringConfig) (p : SpringOptions) : WobbleSpringConfig where
  mass := p.mass.getD c.mass
  stiffness := p.stiffness.getD c.stiffness
  damping := p.damping.getD c.damping
  initialVelocity := p.initialVelocity.getD c.initialVelocity
  overshootClamping := p.overshootClamping.getD c.overshootClamping
  restDisplacementThreshold := p.restDisplacementThreshold.getD c.restDisplacementThreshold
  restVelocityThreshold := p.restVelocityThreshold.getD c.restVelocityThreshold
  toValue := p.toValue.getD c.toValue

/-- Modelled from the spec (§3 invariant): mass and stiffness strictly
positive, damping and the rest thresholds non-negative. -/
def validSpringConfig (c : WobbleSpringConfig) : Bool :=
  decide (0 < c.mass) && decide (0 < c.stiffness) && decide (0 ≤ c.damping) &&
    decide (0 ≤ c.restDisplacementThreshold) && decide (0 ≤ c.restVelocityThreshold)

/-- Modelled from the spec (§4.1): the spring state machine's status. -/
inductive SpringStatus where
  | Idle : SpringStatus
  | Running : SpringStatus
  | Stopped : SpringStatus
deriving DecidableEq, Repr

/-- Modelled from the spec (§3): the state of one underlying 1D spring (the
`wobble` `Spring`, which is not in this repository's sources): resolved
configuration, position, velocity and status.  The last-step timestamp and
the update-notifier callback are not modelled; no claim concerns them. -/
structure Spring where
  config : WobbleSpringConfig
  position : ℚ
  velocity : ℚ
  status : SpringStatus
deriving DecidableEq, Repr

/-- Modelled from the spec (§3/§7): constructing an underlying spring from an
optional options object.  Validation fails fast at construction; on success
the spring starts Idle at position 0 (the library's default starting value)
with the configured initial velocity. -/
def Spring.new (o : Option SpringOptions) : Except String Spring :=
  if validSpringConfig (resolveConfig (o.getD {})) then
    .ok { config := resolveConfig (o.getD {}), position := 0,
          velocity := (resolveConfig (o.getD {})).initialVelocity, status := .Idle }
  else
    .error "invalid spring configuration"

/-- Modelled from the spec (§5/§6/§7): live partial reconfiguration.  The
merged configuration is validated at the point of the call; position,
velocity and status are untouched. -/
def Spring.updateConfig (s : Spring) (p : SpringOptions) : Except String Spring :=
  if validSpringConfig (mergeConfig s.config p) then
    .ok { s with config := mergeConfig s.config p }
  else
    .error "invalid spring configuration"

/-- Modelled from the spec (§4.1): `start()` moves Idle/Stopped to Running
and is a no-op on a Running spring; it never touches position or velocity. -/
def Spring.start (s : Spring) : Spring :=
  if s.status = .Running then s else { s with status := .Running }

/-- Modelled from the spec (§4.1): `stop()` moves Running to Stopped and
leaves the other states alone; it never touches position or velocity. -/
def Spring.stop (s : Spring) : Spring :=
  if s.status = .Running then { s with status := .Stopped } else s

/-- Modelled from the spec (§4.1): the spring is animating iff its status is
Running. -/
def Spring.isAnimating (s : Spring) : Bool :=
  s.status == .Running

/-- Modelled from the spec (§4.1 and glossary): the spring is at rest when it
is Idle with its state snapped exactly to the target — the state natural
settling leaves behind.  A spring frozen by `stop()` is Stopped, so it is
neither at rest nor animating. -/
def Spring.isAtRest (s : Spring) : Bool :=
  s.status == .Idle && s.position == s.config.toValue && s.velocity == 0

/-- The host element (`ReactiveControllerHost & HTMLElement`).  Only its DOM
connectedness is read by the controller code; `addController` and
`requestUpdate` have no effect on any state modelled here. -/
structure Host where
  isConnected : Bool
deriving DecidableEq, Repr

/-- The 1D spring reactive controller: private host reference, underlying
spring and the stored `_toValue` target. -/
structure SpringController where
  _host : Host
  _spring : Spring
  _toValue : ℚ
deriving DecidableEq, Repr

/-- The `SpringController` constructor: stores the host, stores
`options?.toValue ?? 0` as `_toValue` and constructs the underlying spring
from the options (registering the update callback, which is not modelled). -/
def SpringController.new (hst : Host) (o : Option SpringOptions) :
    Except String SpringController :=
  match Spring.new o with
  | .error e => .error e
  | .ok s =>
    .ok { _host := hst, _spring := s, _toValue := (o.bind SpringOptions.toValue).getD 0 }

/-- The `currentValue` getter: delegates to the underlying spring's current
position. -/
def SpringController.currentValue (c : SpringController) : ℚ :=
  c._spring.position

/-- The `currentVelocity` getter: delegates to the underlying spring's
velocity. -/
def SpringController.currentVelocity (c : SpringController) : ℚ :=
  c._spring.velocity

/-- The `isAtRest` getter: delegates to the underlying spring. -/
def SpringController.isAtRest (c : SpringController) : Bool :=
  c._spring.isAtRest

/-- The `isAnimating` getter: delegates to the underlying spring. -/
def SpringController.isAnimating (c : SpringController) : Bool :=
  c._spring.isAnimating

/-- The `toValue` getter: returns the stored `_toValue`. -/
def SpringController.toValue (c : SpringController) : ℚ :=
  c._toValue

/-- The `toValue` setter: stores the new target, applies
`updateConfig({toValue})` to the underlying spring and, when the host
element is connected, calls `start()` on it. -/
def SpringController.setToValue (c : SpringController) (v : ℚ) :
    Except String SpringController :=
  match c._spring.updateConfig { toValue := some v } with
  | .error e => .error e
  | .ok s =>
    .ok { c with
          _toValue := v
          _spring := if c._host.isConnected then s.start else s }

/-- The `hostConnected` lifecycle hook: calls `start()` on the underlying
spring. -/
def SpringController.hostConnected (c : SpringController) : SpringController :=
  { c with _spring := c._spring.start }

/-- The `hostDisconnected` lifecycle hook: calls `stop()` on the underlying
spring. -/
def SpringController.hostDisconnected (c : SpringController) : SpringController :=
  { c with _spring := c._spring.stop }

/-- The per-axis options object built by the `SpringController2D`
constructor: the incoming options spread unchanged with `toValue` overridden
by the axis component of the target position (`{...options, toValue: t}`). -/
def axisOptions (o : SpringOptions) (t : ℚ) : SpringOptions :=
  { o with toValue := some t }

/-- The 2D spring reactive controller: two independent axis controllers and
the stored logical target position. -/
structure SpringController2D where
  _xSpring : SpringController
  _ySpring : SpringController
  _toPosition : Position2D
deriving DecidableEq, Repr

/-- The `SpringController2D` constructor: stores
`options?.toPosition ?? {x: 0, y: 0}` and builds one axis controller per
component, each from the full options spread with `toValue` overridden by
that component. -/
def SpringController2D.new (hst : Host) (o : Option SpringOptions) :
    Except String SpringController2D :=
  match SpringController.new hst
      (some (axisOptions (o.getD {}) (((o.bind SpringOptions.toPosition).getD ⟨0, 0⟩).x))) with
  | .error e => .error e
  | .ok xs =>
    match SpringController.new hst
        (some (axisOptions (o.getD {}) (((o.bind SpringOptions.toPosition).getD ⟨0, 0⟩).y))) with
    | .error e => .error e
    | .ok ys =>
      .ok { _xSpring := xs, _ySpring := ys,
            _toPosition := (o.bind SpringOptions.toPosition).getD ⟨0, 0⟩ }

/-- The `currentPosition` getter: pairs the two axes' current values. -/
def SpringController2D.currentPosition (c : SpringController2D) : Position2D :=
  { x := c._xSpring.currentValue, y := c._ySpring.currentValue }

/-- The `currentVelocity` getter: `Math.sqrt(dx ** 2 + dy ** 2)` over the two
axes' current velocities. -/
noncomputable def SpringController2D.currentVelocity (c : SpringController2D) : ℝ :=
  Real.sqrt ((c._xSpring.currentVelocity : ℝ) ^ 2 + (c._ySpring.currentVelocity : ℝ) ^ 2)

/-- The 2D `isAtRest` getter: both axes at rest. -/
def SpringController2D.isAtRest (c : SpringController2D) : Bool :=
  c._xSpring.isAtRest && c._ySpring.isAtRest

/-- The 2D `isAnimating` getter: either axis animating. -/
def SpringController2D.isAnimating (c : SpringController2D) : Bool :=
  c._xSpring.isAnimating || c._ySpring.isAnimating

/-- The `toPosition` getter: returns the stored `_toPosition`. -/
def SpringController2D.toPosition (c : SpringController2D) : Position2D :=
  c._toPosition

/-- The `toPosition` setter: stores the new target position and assigns each
component to the corresponding axis's `toValue` setter. -/
def SpringController2D.setToPosition (c : SpringController2D) (v : Position2D) :
    Except String SpringController2D :=
  match c._xSpring.setToValue v.x with
  | .error e => .error e
  | .ok xs =>
    match c._ySpring.setToValue v.y with
    | .error e => .error e
    | .ok ys => .ok { _xSpring := xs, _ySpring := ys, _toPosition := v }

/-- The 2D `hostConnected` hook: delegates to both axes. -/
def SpringController2D.hostConnected (c : SpringController2D) : SpringController2D :=
  { c with
    _xSpring := c._xSpring.hostConnected
    _ySpring := c._ySpring.hostConnected }

/-- The 2D `hostDisconnected` hook: delegates to both axes. -/
def SpringController2D.hostDisconnected (c : SpringController2D) : SpringController2D :=
  { c with
    _xSpring := c._xSpring.hostDisconnected
    _ySpring := c._ySpring.hostDisconnected }

/-! Concrete sample states used to evaluate the operations on explicit
inputs. -/

/-- A concrete valid configuration (the spec's §8 example parameter set). -/
def flightConfig : WobbleSpringConfig where
  mass := 1
  stiffness := 210
  damping := 20
  initialVelocity := 0
  overshootClamping := false
  restDisplacementThreshold := mkRat 1 1000
  restVelocityThreshold := mkRat 1 1000
  toValue := 100

/-- A connected controller mid-flight towards 100. -/
def flightCtrl : SpringController where
  _host := { isConnected := true }
  _spring := { config := flightConfig, position := 40, velocity := 2, status := .Running }
  _toValue := 100

/-- The state of `flightCtrl` after `toValue = 7`. -/
def flightCtrlRetargeted : SpringController where
  _host := { isConnected := true }
  _spring := { config := { flightConfig with toValue := 7 }, position := 40, velocity := 2,
               status := .Running }
  _toValue := 7

/-- A disconnected controller frozen by `stop()` away from its target. -/
def stoppedCtrl : SpringController where
  _host := { isConnected := false }
  _spring := { config := flightConfig, position := 55, velocity := -3, status := .Stopped }
  _toValue := 100

/-- The state of `stoppedCtrl` after `toValue = 9`. -/
def stoppedCtrlRetargeted : SpringController where
  _host := { isConnected := false }
  _spring := { config := { flightConfig with toValue := 9 }, position := 55, velocity := -3,
               status := .Stopped }
  _toValue := 9

/-- A concrete 2D controller with both axes mid-flight. -/
def flight2D : SpringController2D where
  _xSpring := flightCtrl
  _ySpring := flightCtrl
  _toPosition := ⟨100, 100⟩

/-- The state of `flight2D` after `toPosition = {x: 3, y: 4}`. -/
def flight2DRetargeted : SpringController2D where
  _xSpring := {
    _host := { isConnected := true },
    _spring := { config := { flightConfig with toValue := 3 }, position := 40, velocity := 2,
                 status := .Running },
    _toValue := 3 }
  _ySpring := {
    _host := { isConnected := true },
    _spring := { config := { flightConfig with toValue := 4 }, position := 40, velocity := 2,
                 status := .Running },
    _toValue := 4 }
  _toPosition := ⟨3, 4⟩

/-- Options with an invalid (negative) mass. -/
def badOptions : SpringOptions := { mass := some (-1) }

/-- The controller produced by constructing with all-default options. -/
def defaultCtrl : SpringController where
  _host := { isConnected := true }
  _spring := { config := { mass := 1, stiffness := 100, damping := 10, initialVelocity := 0,
                           overshootClamping := false,
                           restDisplacementThreshold := mkRat 1 1000,
                           restVelocityThreshold := mkRat 1 1000, toValue := 0 },
               position := 0, velocity := 0, status := .Idle }
  _toValue := 0

/-- The 2D controller produced by constructing with all-default options. -/
def default2DCtrl : SpringController2D where
  _xSpring := defaultCtrl
  _ySpring := defaultCtrl
  _toPosition := ⟨0, 0⟩

/-- Options carrying only a target position. -/
def sample2DOptions : SpringOptions := { toPosition := some ⟨5, 6⟩ }

/-- The 2D controller produced by constructing from `sample2DOptions`. -/
def sample2DCtrl : SpringController2D where
  _xSpring := {
    _host := { isConnected := true },
    _spring := { config := { mass := 1, stiffness := 100, damping := 10, initialVelocity := 0,
                             overshootClamping := false,
                             restDisplacementThreshold := mkRat 1 1000,
                             restVelocityThreshold := mkRat 1 1000, toValue := 5 },
                 position := 0, velocity := 0, status := .Idle },
    _toValue := 5 }
  _ySpring := {
    _host := { isConnected := true },
    _spring := { config := { mass := 1, stiffness := 100, damping := 10, initialVelocity := 0,
                             overshootClamping := false,
                             restDisplacementThreshold := mkRat 1 1000,
                             restVelocityThreshold := mkRat 1 1000, toValue := 6 },
                 position := 0, velocity := 0, status := .Idle },
    _toValue := 6 }
  _toPosition := ⟨5, 6⟩

/-! Helper lemmas about the modelled spring operations. -/

/-- Starting a spring never changes its configuration. -/
theorem Spring.start_config (s : Spring) : s.start.config = s.config := by
  unfold Spring.start; split <;> rfl

/-- Starting a spring never changes its position. -/
theorem Spring.start_position (s : Spring) : s.start.position = s.position := by
  unfold Spring.start; split <;> rfl

/-- Starting a spring never changes its velocity. -/
theorem Spring.start_velocity (s : Spring) : s.start.velocity = s.velocity := by
  unfold Spring.start; split <;> rfl

/-- Starting a spring always leaves it Running. -/
theorem Spring.start_status (s : Spring) : s.start.status = SpringStatus.Running := by
  unfold Spring.start; split
  · assumption
  · rfl

/-- The configuration validity check, spelled as a proposition. -/
theorem validSpringConfig_eq_true_iff (c : WobbleSpringConfig) :
    validSpringConfig c = true ↔
      0 < c.mass ∧ 0 < c.stiffness ∧ 0 ≤ c.damping ∧
        0 ≤ c.restDisplacementThreshold ∧ 0 ≤ c.restVelocityThreshold := by
  simp [validSpringConfig, and_assoc]

/-! Theorems settling the claims. -/

/-- C1: the 2D controller is at rest iff both axis springs are at rest
(conjunction), and it is animating iff at least one axis spring is animating
(disjunction). -/
theorem spring2D_rest_conjunction_animating_disjunction (c : SpringController2D) :
    (c.isAtRest = true ↔ (c._xSpring.isAtRest = true ∧ c._ySpring.isAtRest = true)) ∧
    (c.isAnimating = true ↔ (c._xSpring.isAnimating = true ∨ c._ySpring.isAnimating = true)) := by
  refine ⟨?_, ?_⟩ <;>
    simp [SpringController2D.isAtRest, SpringController2D.isAnimating]

/-- C5: `currentPosition` is exactly the pair of the two axis springs' current
values: its x component is the x-axis spring's position and its y component is
the y-axis spring's position. -/
theorem currentPosition_components (c : SpringController2D) :
    c.currentPosition.x = c._xSpring._spring.position ∧
    c.currentPosition.y = c._ySpring._spring.position ∧
    c.currentPosition = { x := c._xSpring.currentValue, y := c._ySpring.currentValue } :=
  ⟨rfl, rfl, rfl⟩

/-- C6: the 2D `currentVelocity` is the Euclidean norm of the two axis
velocities: it equals `sqrt(vx^2 + vy^2)`, is non-negative, and its square is
`vx^2 + vy^2`. -/
theorem currentVelocity2D_euclidean_norm (c : SpringController2D) :
    c.currentVelocity =
      Real.sqrt ((c._xSpring._spring.velocity : ℝ) ^ 2 +
        (c._ySpring._spring.velocity : ℝ) ^ 2) ∧
    0 ≤ c.currentVelocity ∧
    c.currentVelocity ^ 2 =
      (c._xSpring.currentVelocity : ℝ) ^ 2 + (c._ySpring.currentVelocity : ℝ) ^ 2 := by
  refine ⟨rfl, Real.sqrt_nonneg _, ?_⟩
  rw [SpringController2D.currentVelocity, Real.sq_sqrt (by positivity)]

/-- C7: `hostConnected` calls `start()` on the underlying spring (leaving it
Running) and `hostDisconnected` calls `stop()`; the 2D hooks delegate exactly
those hooks to both axis controllers. -/
theorem lifecycle_hooks_delegate (c : SpringController) (d : SpringController2D) :
    c.hostConnected._spring = c._spring.start ∧
    c.hostDisconnected._spring = c._spring.stop ∧
    c.hostConnected._spring.status = SpringStatus.Running ∧
    d.hostConnected._xSpring = d._xSpring.hostConnected ∧
    d.hostConnected._ySpring = d._ySpring.hostConnected ∧
    d.hostDisconnected._xSpring = d._xSpring.hostDisconnected ∧
    d.hostDisconnected._ySpring = d._ySpring.hostDisconnected :=
  ⟨rfl, rfl, Spring.start_status _, rfl, rfl, rfl, rfl⟩

/-- C2: assigning the `toValue` setter stores the new target (the getter then
returns it), updates the underlying spring's target configuration, and calls
`start()` on the spring exactly when the host element is connected; when it is
not connected only internal state changes (the status is untouched) and motion
resumes on the next `hostConnected`. -/
theorem setToValue_updates_target_and_starts_iff_connected
    (c : SpringController) (v : ℚ) (c' : SpringController)
    (h : c.setToValue v = Except.ok c') :
    c'.toValue = v ∧
    c'._spring.config.toValue = v ∧
    (c._host.isConnected = true →
      ∃ s, c._spring.updateConfig { toValue := some v } = Except.ok s ∧
        c'._spring = s.start ∧ c'._spring.status = SpringStatus.Running) ∧
    (c._host.isConnected = false →
      ∃ s, c._spring.updateConfig { toValue := some v } = Except.ok s ∧
        c'._spring = s ∧ c'._spring.status = c._spring.status ∧
        c'.hostConnected._spring.status = SpringStatus.Running) := by
  unfold SpringController.setToValue Spring.updateConfig at h
  by_cases hv : validSpringConfig (mergeConfig c._spring.config { toValue := some v }) = true
  · rw [if_pos hv] at h
    injection h with h
    subst h
    have hu : c._spring.updateConfig { toValue := some v } =
        Except.ok { c._spring with config := mergeConfig c._spring.config { toValue := some v } } := by
      unfold Spring.updateConfig
      rw [if_pos hv]
    refine ⟨rfl, ?_, ?_, ?_⟩
    · by_cases hc : c._host.isConnected = true
      · simp only [SpringController.toValue, hc, if_true, Spring.start_config]
        rfl
      · simp only [SpringController.toValue, hc, if_false, Bool.false_eq_true]
        rfl
    · intro hc
      refine ⟨_, hu, by simp only [hc, if_true], ?_⟩
      simp only [hc, if_true, Spring.start_status]
    · intro hc
      refine ⟨_, hu, by simp [hc], ?_, Spring.start_status _⟩
      simp only [hc, Bool.false_eq_true, if_false]
  · rw [if_neg hv] at h
    exact Except.noConfusion h

/-- C3: assigning the `toValue` setter changes only the target: the
controller's current value (position) and current velocity are unchanged at
the instant of the assignment. -/
theorem setToValue_preserves_position_and_velocity
    (c : SpringController) (v : ℚ) (c' : SpringController)
    (h : c.setToValue v = Except.ok c') :
    c'.currentValue = c.currentValue ∧ c'.currentVelocity = c.currentVelocity := by
  unfold SpringController.setToValue Spring.updateConfig at h
  by_cases hv : validSpringConfig (mergeConfig c._spring.config { toValue := some v }) = true
  · rw [if_pos hv] at h
    injection h with h
    subst h
    constructor
    · by_cases hc : c._host.isConnected = true <;>
        simp [SpringController.currentValue, hc, Spring.start_position]
    · by_cases hc : c._host.isConnected = true <;>
        simp [SpringController.currentVelocity, hc, Spring.start_velocity]
  · rw [if_neg hv] at h
    exact Except.noConfusion h

/-- Witness for C2: retargeting the concrete connected mid-flight controller
to 7 stores 7 and updates the spring's configured target to 7. -/
theorem setToValue_updates_target_and_starts_iff_connected_witness :
    flightCtrl.setToValue 7 = Except.ok flightCtrlRetargeted ∧
    flightCtrlRetargeted.toValue = 7 ∧
    flightCtrlRetargeted._spring.config.toValue = 7 :=
  ⟨by rfl,
   (setToValue_updates_target_and_starts_iff_connected flightCtrl 7 flightCtrlRetargeted
     (by rfl)).1,
   (setToValue_updates_target_and_starts_iff_connected flightCtrl 7 flightCtrlRetargeted
     (by rfl)).2.1⟩

/-- Witness for C3: retargeting the concrete stopped controller to 9 leaves
its current value and current velocity unchanged. -/
theorem setToValue_preserves_position_and_velocity_witness :
    stoppedCtrl.setToValue 9 = Except.ok stoppedCtrlRetargeted ∧
    stoppedCtrlRetargeted.currentValue = stoppedCtrl.currentValue ∧
    stoppedCtrlRetargeted.currentVelocity = stoppedCtrl.currentVelocity :=
  ⟨by rfl,
   (setToValue_preserves_position_and_velocity stoppedCtrl 9 stoppedCtrlRetargeted (by rfl)).1,
   (setToValue_preserves_position_and_velocity stoppedCtrl 9 stoppedCtrlRetargeted (by rfl)).2⟩

/-- A successful 1D construction yields the host, the resolved configuration,
a spring Idle at position 0 with the configured initial velocity, and the
stored target `options?.toValue ?? 0`. -/
theorem springController_new_ok (hst : Host) (oo : Option SpringOptions)
    (c : SpringController) (h : SpringController.new hst oo = Except.ok c) :
    c._host = hst ∧ c._spring.config = resolveConfig (oo.getD {}) ∧
    c._spring.position = 0 ∧
    c._spring.velocity = (resolveConfig (oo.getD {})).initialVelocity ∧
    c._spring.status = SpringStatus.Idle ∧
    c._toValue = (oo.bind SpringOptions.toValue).getD 0 := by
  unfold SpringController.new at h
  cases hs : Spring.new oo with
  | error e => rw [hs] at h; exact Except.noConfusion h
  | ok s =>
    rw [hs] at h
    injection h with h
    subst h
    unfold Spring.new at hs
    split at hs
    · injection hs with hs
      subst hs
      exact ⟨rfl, rfl, rfl, rfl, rfl, rfl⟩
    · exact Except.noConfusion hs

/-- A successful 2D construction yields the stored target position
`options?.toPosition ?? {x: 0, y: 0}` and per-axis controllers built from the
spread options with the axis component as target. -/
theorem springController2D_new_ok (hst : Host) (oo : Option SpringOptions)
    (d : SpringController2D) (h : SpringController2D.new hst oo = Except.ok d) :
    d._toPosition = (oo.bind SpringOptions.toPosition).getD ⟨0, 0⟩ ∧
    SpringController.new hst (some (axisOptions (oo.getD {})
      (((oo.bind SpringOptions.toPosition).getD ⟨0, 0⟩).x))) = Except.ok d._xSpring ∧
    SpringController.new hst (some (axisOptions (oo.getD {})
      (((oo.bind SpringOptions.toPosition).getD ⟨0, 0⟩).y))) = Except.ok d._ySpring := by
  unfold SpringController2D.new at h
  cases hx : SpringController.new hst (some (axisOptions (oo.getD {})
      (((oo.bind SpringOptions.toPosition).getD ⟨0, 0⟩).x))) with
  | error e => rw [hx] at h; exact Except.noConfusion h
  | ok xs =>
    rw [hx] at h
    cases hy : SpringController.new hst (some (axisOptions (oo.getD {})
        (((oo.bind SpringOptions.toPosition).getD ⟨0, 0⟩).y))) with
    | error e => rw [hy] at h; exact Except.noConfusion h
    | ok ys =>
      rw [hy] at h
      injection h with h
      subst h
      exact ⟨rfl, rfl, rfl⟩

/-- C4: the `toPosition` setter stores the new target position exactly (the
getter then returns it, independent of what the axes currently read), and it
assigns the x component through the x-axis `toValue` setter and the y
component through the y-axis `toValue` setter. -/
theorem setToPosition_stores_target_and_fans_out
    (c : SpringController2D) (p : Position2D) (c' : SpringController2D)
    (h : c.setToPosition p = Except.ok c') :
    c'.toPosition = p ∧
    c._xSpring.setToValue p.x = Except.ok c'._xSpring ∧
    c._ySpring.setToValue p.y = Except.ok c'._ySpring := by
  unfold SpringController2D.setToPosition at h
  cases hx : c._xSpring.setToValue p.x with
  | error e => rw [hx] at h; exact Except.noConfusion h
  | ok xs =>
    rw [hx] at h
    cases hy : c._ySpring.setToValue p.y with
    | error e => rw [hy] at h; exact Except.noConfusion h
    | ok ys =>
      rw [hy] at h
      injection h with h
      subst h
      exact ⟨rfl, rfl, rfl⟩

/-- A configuration violating the §3 invariant is rejected by the validity
check. -/
theorem validSpringConfig_eq_false_of (c : WobbleSpringConfig)
    (hbad : c.mass ≤ 0 ∨ c.stiffness ≤ 0 ∨ c.damping < 0 ∨
      c.restDisplacementThreshold < 0 ∨ c.restVelocityThreshold < 0) :
    validSpringConfig c = false := by
  rw [Bool.eq_false_iff]
  intro hval
  rw [validSpringConfig_eq_true_iff] at hval
  rcases hbad with h1 | h1 | h1 | h1 | h1
  · exact absurd hval.1 (not_lt.mpr h1)
  · exact absurd hval.2.1 (not_lt.mpr h1)
  · exact absurd hval.2.2.1 (not_le.mpr h1)
  · exact absurd hval.2.2.2.1 (not_le.mpr h1)
  · exact absurd hval.2.2.2.2 (not_le.mpr h1)

/-- C8: a non-positive mass or stiffness, or a negative damping or rest
threshold, makes construction fail synchronously with an error, and likewise
makes a reconfiguration call fail at the point of the call; a successful
construction stores the given configuration values unchanged (no silent
clamping). -/
theorem invalid_config_fails_fast (hst : Host) (o p : SpringOptions) (s : Spring)
    (c : SpringController) :
    (((resolveConfig o).mass ≤ 0 ∨ (resolveConfig o).stiffness ≤ 0 ∨
        (resolveConfig o).damping < 0 ∨ (resolveConfig o).restDisplacementThreshold < 0 ∨
        (resolveConfig o).restVelocityThreshold < 0) →
      SpringController.new hst (some o) = Except.error "invalid spring configuration") ∧
    (((mergeConfig s.config p).mass ≤ 0 ∨ (mergeConfig s.config p).stiffness ≤ 0 ∨
        (mergeConfig s.config p).damping < 0 ∨
        (mergeConfig s.config p).restDisplacementThreshold < 0 ∨
        (mergeConfig s.config p).restVelocityThreshold < 0) →
      s.updateConfig p = Except.error "invalid spring configuration") ∧
    (SpringController.new hst (some o) = Except.ok c → c._spring.config = resolveConfig o) := by
  refine ⟨?_, ?_, ?_⟩
  · intro hbad
    have hv := validSpringConfig_eq_false_of _ hbad
    unfold SpringController.new Spring.new
    simp only [Option.getD_some, hv, Bool.false_eq_true, if_false]
  · intro hbad
    have hv := validSpringConfig_eq_false_of _ hbad
    unfold Spring.updateConfig
    simp only [hv, Bool.false_eq_true, if_false]
  · intro hok
    exact (springController_new_ok hst (some o) c hok).2.1

/-- Witness for C8: a negative mass makes construction error, a negative
damping makes reconfiguration error, and the all-default construction stores
the resolved configuration unchanged. -/
theorem invalid_config_fails_fast_witness :
    ((resolveConfig badOptions).mass ≤ 0 ∨ (resolveConfig badOptions).stiffness ≤ 0 ∨
      (resolveConfig badOptions).damping < 0 ∨
      (resolveConfig badOptions).restDisplacementThreshold < 0 ∨
      (resolveConfig badOptions).restVelocityThreshold < 0) ∧
    SpringController.new { isConnected := true } (some badOptions) =
      Except.error "invalid spring configuration" ∧
    flightCtrl._spring.updateConfig { damping := some (-5) } =
      Except.error "invalid spring configuration" ∧
    SpringController.new { isConnected := true } (some {}) = Except.ok defaultCtrl ∧
    defaultCtrl._spring.config = resolveConfig {} :=
  ⟨by decide,
   (invalid_config_fails_fast { isConnected := true } badOptions { damping := some (-5) }
      flightCtrl._spring defaultCtrl).1 (by decide),
   (invalid_config_fails_fast { isConnected := true } badOptions { damping := some (-5) }
      flightCtrl._spring defaultCtrl).2.1 (by decide),
   by rfl,
   (invalid_config_fails_fast { isConnected := true } ({} : SpringOptions)
      { damping := some (-5) } flightCtrl._spring defaultCtrl).2.2 (by rfl)⟩

/-- Witness for C4: retargeting the concrete mid-flight 2D controller to
`{x: 3, y: 4}` stores that position even though the axes still read 40. -/
theorem setToPosition_stores_target_and_fans_out_witness :
    flight2D.setToPosition ⟨3, 4⟩ = Except.ok flight2DRetargeted ∧
    flight2DRetargeted.toPosition = ⟨3, 4⟩ ∧
    flight2DRetargeted.currentPosition.x ≠ 3 :=
  ⟨by rfl,
   (setToPosition_stores_target_and_fans_out flight2D ⟨3, 4⟩ flight2DRetargeted (by rfl)).1,
   by decide⟩

/-- C9: the two axis option objects built by the 2D constructor are the
incoming options with only `toValue` overridden (every other field, including
`fromPosition`, passes through unchanged); the whole construction is
insensitive to `fromPosition`, so each axis starts at position 0 regardless
of it, and each axis's stored target is the corresponding component of the
target position. -/
theorem axis_options_identical_except_toValue
    (hst : Host) (o : SpringOptions) (t : ℚ) (v : Option Position2D)
    (d : SpringController2D) :
    ((axisOptions o t).toValue = some t ∧
     (axisOptions o t).mass = o.mass ∧
     (axisOptions o t).stiffness = o.stiffness ∧
     (axisOptions o t).damping = o.damping ∧
     (axisOptions o t).initialVelocity = o.initialVelocity ∧
     (axisOptions o t).overshootClamping = o.overshootClamping ∧
     (axisOptions o t).restDisplacementThreshold = o.restDisplacementThreshold ∧
     (axisOptions o t).restVelocityThreshold = o.restVelocityThreshold ∧
     (axisOptions o t).toPosition = o.toPosition ∧
     (axisOptions o t).fromPosition = o.fromPosition) ∧
    SpringController2D.new hst (some { o with fromPosition := v }) =
      SpringController2D.new hst (some o) ∧
    (SpringController2D.new hst (some o) = Except.ok d →
      d._xSpring.toValue = (o.toPosition.getD ⟨0, 0⟩).x ∧
      d._ySpring.toValue = (o.toPosition.getD ⟨0, 0⟩).y ∧
      d._xSpring._spring.position = 0 ∧ d._ySpring._spring.position = 0) := by
  refine ⟨⟨rfl, rfl, rfl, rfl, rfl, rfl, rfl, rfl, rfl, rfl⟩, ?_, ?_⟩
  · rfl
  · intro hok
    obtain ⟨-, hx, hy⟩ := springController2D_new_ok hst (some o) d hok
    obtain ⟨-, -, hxp, -, -, hxv⟩ := springController_new_ok hst _ _ hx
    obtain ⟨-, -, hyp, -, -, hyv⟩ := springController_new_ok hst _ _ hy
    exact ⟨hxv, hyv, hxp, hyp⟩

/-- Witness for C9: constructing from options carrying only the target
position `{x: 5, y: 6}` gives axis targets 5 and 6, and adding a
`fromPosition` of `{x: 77, y: 88}` changes nothing. -/
theorem axis_options_identical_except_toValue_witness :
    SpringController2D.new { isConnected := true } (some sample2DOptions) =
      Except.ok sample2DCtrl ∧
    sample2DCtrl._xSpring.toValue = 5 ∧
    sample2DCtrl._ySpring.toValue = 6 ∧
    SpringController2D.new { isConnected := true }
        (some { sample2DOptions with fromPosition := some ⟨77, 88⟩ }) =
      SpringController2D.new { isConnected := true } (some sample2DOptions) :=
  ⟨by rfl,
   ((axis_options_identical_except_toValue { isConnected := true } sample2DOptions 0
       (some ⟨77, 88⟩) sample2DCtrl).2.2 (by rfl)).1,
   ((axis_options_identical_except_toValue { isConnected := true } sample2DOptions 0
       (some ⟨77, 88⟩) sample2DCtrl).2.2 (by rfl)).2.1,
   (axis_options_identical_except_toValue { isConnected := true } sample2DOptions 0
       (some ⟨77, 88⟩) sample2DCtrl).2.1⟩

/-- C10: with the target omitted from the options the default target is
zero: a 1D controller built without `toValue` reads back 0, and a 2D
controller built without `toPosition` reads back `{x: 0, y: 0}` (whether the
options object is absent or merely lacks the field). -/
theorem default_target_zero (hst : Host) (o : SpringOptions)
    (c c2 : SpringController) (d d2 : SpringController2D) :
    (o.toValue = none → SpringController.new hst (some o) = Except.ok c → c.toValue = 0) ∧
    (SpringController.new hst none = Except.ok c2 → c2.toValue = 0) ∧
    (o.toPosition = none → SpringController2D.new hst (some o) = Except.ok d →
      d.toPosition = ⟨0, 0⟩) ∧
    (SpringController2D.new hst none = Except.ok d2 → d2.toPosition = ⟨0, 0⟩) := by
  refine ⟨?_, ?_, ?_, ?_⟩
  · intro h0 hok
    have h1 : c._toValue = o.toValue.getD 0 :=
      (springController_new_ok hst (some o) c hok).2.2.2.2.2
    rw [h0] at h1
    exact h1
  · intro hok
    exact (springController_new_ok hst none c2 hok).2.2.2.2.2
  · intro h0 hok
    have h1 : d._toPosition = o.toPosition.getD ⟨0, 0⟩ :=
      (springController2D_new_ok hst (some o) d hok).1
    rw [h0] at h1
    exact h1
  · intro hok
    exact (springController2D_new_ok hst none d2 hok).1

/-- Witness for C10: all-default construction yields target 0 in 1D and
`{x: 0, y: 0}` in 2D, for both the missing and the empty options object. -/
theorem default_target_zero_witness :
    ({} : SpringOptions).toValue = none ∧
    SpringController.new { isConnected := true } (some {}) = Except.ok defaultCtrl ∧
    defaultCtrl.toValue = 0 ∧
    SpringController.new { isConnected := true } none = Except.ok defaultCtrl ∧
    ({} : SpringOptions).toPosition = none ∧
    SpringController2D.new { isConnected := true } (some {}) = Except.ok default2DCtrl ∧
    SpringController2D.new { isConnected := true } none = Except.ok default2DCtrl ∧
    default2DCtrl.toPosition = ⟨0, 0⟩ :=
  ⟨rfl, by rfl,
   (default_target_zero { isConnected := true } {} defaultCtrl defaultCtrl default2DCtrl
      default2DCtrl).1 rfl (by rfl),
   by rfl, rfl, by rfl, by rfl,
   (default_target_zero { isConnected := true } {} defaultCtrl defaultCtrl default2DCtrl
      default2DCtrl).2.2.1 rfl (by rfl)⟩
